import Mathlib

/-!
# Verification of the deep-research agent core (`src/main.py`)

Shallow embedding of the orchestration core of the repository:
the rate-limited web-search tool (`web_search`), the retrying invoker
(`safe_run_sync`), and the orchestrator's tool registry.  Time is
modelled by rationals (an ideal clock: `time.sleep d` advances the
clock by exactly `d`), provider calls by explicit `Except` values, and
the Python `while` loop of `safe_run_sync` by fuel recursion on the
remaining retry budget.
-/

/-! ## Rate-limited web search tool (`web_search`, src/main.py lines 48-81) -/

/-- The shared limiter state: the module-level global `last_call_time`
(initially `0`). -/
structure LimiterState where
  last_call_time : ℚ
  deriving Repr, DecidableEq

/-- The minimum inter-call interval: `6` seconds (10 calls/min). -/
def minInterval : ℚ := 6

/-- Duration of the `time.sleep` performed by `web_search`:
`elapsed = now - last_call_time`; if `elapsed < 6` the caller sleeps
`6 - elapsed`, otherwise it does not sleep. -/
def sleepDuration (now last : ℚ) : ℚ :=
  if now - last < minInterval then minInterval - (now - last) else 0

/-- The clock value at which the provider call is issued (and at which
`last_call_time = time.time()` is executed, line 62): the entry clock
`now` advanced by the sleep, on an ideal clock. -/
def callStart (now last : ℚ) : ℚ :=
  now + sleepDuration now last

/-- One provider result entry.  Each field is `Option`al, modelling
presence/absence of the corresponding key in the Python dict. -/
structure SearchEntry where
  title : Option String
  url : Option String
  snippet : Option String
  content : Option String
  deriving Repr, DecidableEq

/-- A provider response dict: `results = none` models the `"results"`
key being absent. -/
structure SearchResponse where
  results : Option (List SearchEntry)
  deriving Repr, DecidableEq

/-- Python's `a or b` on an optional string `a`: `b` when `a` is absent
(`None`) or falsy (the empty string). -/
def pyOr : Option String → String → String
  | some s, d => if s = "" then d else s
  | none, d => d

/-- The snippet field of a formatted line:
`r.get("snippet") or r.get("content") or "No snippet available"`
(line 75). -/
def snippetVal (r : SearchEntry) : String :=
  pyOr r.snippet (pyOr r.content "No snippet available")

/-- One formatted result line, `f"- {title} ({url}): {snippet}"`
(lines 73-76); `title`/`url` use `dict.get` with a default, which fires
only when the key is absent. -/
def formatEntry (r : SearchEntry) : String :=
  "- " ++ r.title.getD "No Title" ++ " (" ++ r.url.getD "No URL" ++ "): " ++ snippetVal r

/-- Following the spec's words for claim C7 only (to be compared with
the source's `formatEntry`): a missing `snippet` key is replaced
directly by the placeholder `"No snippet available"`, taking no account
of a `content` field. -/
def formatEntryClaimed (r : SearchEntry) : String :=
  "- " ++ r.title.getD "No Title" ++ " (" ++ r.url.getD "No URL" ++ "): " ++
    r.snippet.getD "No snippet available"

/-- The `try:` body of `web_search` after the provider call returned or
raised (lines 64-81): an exception with message `m` becomes the string
`"WebSearchTool failed: " ++ m`; an absent or empty (falsy) `results`
list becomes `"No results found."`; otherwise the newline-join of the
formatted lines. -/
def webSearchBody (resp : Except String SearchResponse) : String :=
  match resp with
  | .error m => "WebSearchTool failed: " ++ m
  | .ok d =>
    match d.results with
    | none => "No results found."
    | some rs =>
      if rs.isEmpty then "No results found."
      else String.intercalate "\n" (rs.map formatEntry)

/-- The full `web_search` tool (lines 52-81): given the shared limiter
state, the clock at entry, and the provider outcome, it throttles,
updates `last_call_time` to the call-start time, and returns the result
string together with the new limiter state.  The function is total: no
path raises. -/
def web_search (st : LimiterState) (now : ℚ) (resp : Except String SearchResponse) :
    String × LimiterState :=
  let start := callStart now st.last_call_time
  (webSearchBody resp, ⟨start⟩)

/-! ## Retrying invoker (`safe_run_sync`, src/main.py lines 196-214) -/

/-- Decidable substring test on character lists: does `s` start with
`p`? -/
def charsStartWith : List Char → List Char → Bool
  | _, [] => true
  | [], _ :: _ => false
  | c :: cs, p :: ps => (c = p) && charsStartWith cs ps

/-- Decidable substring test on character lists: does `p` occur
somewhere inside `s`? -/
def charsContain : List Char → List Char → Bool
  | s, p =>
    charsStartWith s p ||
      match s with
      | [] => false
      | _ :: rest => charsContain rest p

/-- `p in s` for Python strings. -/
def strContains (s p : String) : Bool :=
  charsContain s.data p.data

/-- An exception raised by `Runner.run_sync`: either an
`openai.RateLimitError` or any other exception, carrying `str(e)`. -/
inductive RunError where
  | rateLimit (msg : String)
  | exc (msg : String)
  deriving Repr, DecidableEq

/-- Classification performed by the two `except` arms of
`safe_run_sync` (lines 201-213): a `RateLimitError` always retries; any
other exception retries exactly when its message contains
`"RESOURCE_EXHAUSTED"` or `"429"`. -/
def isTransient : RunError → Bool
  | .rateLimit _ => true
  | .exc m => strContains m "RESOURCE_EXHAUSTED" || strContains m "429"

/-- The outcome of `safe_run_sync`: a returned result, a re-raised
non-transient exception, or the terminal
`Exception("Too many retries, giving up.")` of line 214. -/
inductive SafeOutcome (α : Type) where
  | ok (a : α)
  | raised (e : RunError)
  | exhausted (msg : String)
  deriving Repr, DecidableEq

/-- What one run of `safe_run_sync` did: its outcome, how many calls of
`Runner.run_sync` it made, and the durations of the `time.sleep` calls
it performed, in order. -/
structure SafeTrace (α : Type) where
  outcome : SafeOutcome α
  attemptsMade : ℕ
  sleeps : List ℚ
  deriving Repr, DecidableEq

/-- The `while attempt < max_retries` loop of `safe_run_sync`
(lines 198-213), as fuel recursion on the remaining budget
`remaining = max_retries - attempt`; `f k` is the outcome of the `k`-th
(0-indexed) call of `Runner.run_sync`.  On a transient failure the loop
sleeps `base_delay * 2 ^ attempt` seconds and retries; on any other
exception it re-raises; when the budget is exhausted it raises
`Exception("Too many retries, giving up.")`. -/
def safeRunGo (f : ℕ → Except RunError α) (base_delay : ℚ) :
    (attempt : ℕ) → (remaining : ℕ) → SafeTrace α
  | attempt, 0 => ⟨.exhausted "Too many retries, giving up.", attempt, []⟩
  | attempt, r + 1 =>
    match f attempt with
    | .ok a => ⟨.ok a, attempt + 1, []⟩
    | .error e =>
      if isTransient e then
        let t := safeRunGo f base_delay (attempt + 1) r
        ⟨t.outcome, t.attemptsMade, (base_delay * 2 ^ attempt) :: t.sleeps⟩
      else
        ⟨.raised e, attempt + 1, []⟩

/-- `safe_run_sync` (lines 196-214): the attempt counter starts at `0`,
so the initial remaining budget is `max_retries`. -/
def safe_run_sync (f : ℕ → Except RunError α) (max_retries : ℕ) (base_delay : ℚ) :
    SafeTrace α :=
  safeRunGo f base_delay 0 max_retries

/-- The list of backoff sleep durations performed by attempts
`start, start+1, ..., start+n-1` when each fails transiently. -/
def backoffSleeps (base_delay : ℚ) : ℕ → ℕ → List ℚ
  | _, 0 => []
  | start, n + 1 => (base_delay * 2 ^ start) :: backoffSleeps base_delay (start + 1) n

/-! ## Orchestrator (src/main.py lines 147-178 and the spec's loop) -/

/-- The tool names registered on `orchestrator_agent` (lines 170-177),
in declaration order. -/
def orchestratorToolNames : List String :=
  ["current_date", "PlanningTool", "ReflectionTool", "WebSearchTool",
   "ReportWriterTool", "SynthesisTool"]

/-- Modelled from the spec: section 4.4 says "at each step the
orchestrator selects one tool from its registered set" with "tool
selection ... delegated to the reasoning policy"; the tool-selection
loop itself lives in the external agents framework, and the `Agent`
declaration in the source attaches no structural precondition to any
tool.  A sequence of tool selections is therefore valid exactly when
every selected name is registered. -/
def validTrace (ts : List String) : Bool :=
  ts.all (fun t => orchestratorToolNames.contains t)

/-- Does a trace invoke `"ReportWriterTool"` only after at least one
`"SynthesisTool"` invocation?  Scanning left to right, a report before
any synthesis refutes the property; once a synthesis occurs the rest is
unconstrained. -/
def reportGated : List String → Bool
  | [] => true
  | t :: rest =>
    if t = "ReportWriterTool" then false
    else if t = "SynthesisTool" then true
    else reportGated rest

/-- Modelled from the spec: the result text and sufficiency signal of
one orchestration step (one tool delegation plus the policy's own
judgement, section 4.4's transition policy and StopCondition). -/
structure OrchStep where
  text : String
  sufficient : Bool

/-- Modelled from the spec: the orchestrator loop of section 4.4 — each
step strictly increases the turn count; the loop stops when the policy
signals sufficiency, and otherwise transitions to Done once `maxTurns`
is reached, returning the last available textual output as the
best-effort result.  Returns (turns used, final text). -/
def orchLoop (step : ℕ → OrchStep) (maxTurns : ℕ) : (turn : ℕ) → (lastText : String) → ℕ × String
  | turn, lastText =>
    if h : turn < maxTurns then
      let r := step turn
      if r.sufficient then (turn + 1, r.text)
      else orchLoop step maxTurns (turn + 1) r.text
    else (turn, lastText)
  termination_by turn _ => maxTurns - turn

/-- Modelled from the spec: a whole orchestration run starts at turn
`0` in state Started with no text produced yet. -/
def orchestrate (step : ℕ → OrchStep) (maxTurns : ℕ) : ℕ × String :=
  orchLoop step maxTurns 0 ""

/-! ## Helper lemmas -/

/-- The call-start produced by the throttle is always at least
`minInterval` after the stored `last_call_time`, whatever the entry
clock is. -/
theorem callStart_gap (now last : ℚ) : minInterval ≤ callStart now last - last := by
  simp only [callStart, sleepDuration, minInterval]
  split_ifs with h <;> linarith

/-! ## Claim theorems: web search -/

/-- C1: consecutive calls through the shared limiter start at least the
minimum interval of 6 seconds apart: when the elapsed time since
`last_call_time` is below 6 seconds the caller sleeps exactly the
remainder, `last_call_time` is set to the call-start clock just before
the provider call, and a second `web_search` call issued from the
updated state starts no less than 6 seconds after the first call's
start. -/
theorem web_search_min_interval (st : LimiterState) (now now' : ℚ)
    (resp resp' : Except String SearchResponse) :
    (now - st.last_call_time < minInterval →
      sleepDuration now st.last_call_time = minInterval - (now - st.last_call_time)) ∧
    (web_search st now resp).2.last_call_time = callStart now st.last_call_time ∧
    minInterval ≤
      (web_search (web_search st now resp).2 now' resp').2.last_call_time -
        (web_search st now resp).2.last_call_time := by
  refine ⟨fun h => by rw [sleepDuration, if_pos h], rfl, ?_⟩
  exact callStart_gap now' (callStart now st.last_call_time)

/-- Closed instance of `web_search_min_interval`: from `last_call_time
= 0`, a call at clock 2 and a follow-up at clock 3 start 6 seconds
apart. -/
theorem web_search_min_interval_witness :
    (web_search ⟨0⟩ 2 (Except.error "x")).2.last_call_time = callStart 2 0 ∧
    minInterval ≤
      (web_search (web_search ⟨0⟩ 2 (Except.error "x")).2 3 (Except.error "y")).2.last_call_time -
        (web_search ⟨0⟩ 2 (Except.error "x")).2.last_call_time :=
  ⟨(web_search_min_interval ⟨0⟩ 2 3 (Except.error "x") (Except.error "y")).2.1,
   (web_search_min_interval ⟨0⟩ 2 3 (Except.error "x") (Except.error "y")).2.2⟩

/-- C5: when the provider raises with message `m`, `web_search` returns
the ordinary string `"WebSearchTool failed: " ++ m`; `web_search` is a
total function of the provider outcome, so no provider exception
propagates to its caller. -/
theorem web_search_provider_failure (st : LimiterState) (now : ℚ) (m : String) :
    (web_search st now (Except.error m)).1 = "WebSearchTool failed: " ++ m := rfl

/-- C6: a provider response whose `"results"` key is absent or holds
the empty list yields exactly the literal `"No results found."`, which
is not the empty string. -/
theorem web_search_no_results (st : LimiterState) (now : ℚ) :
    (web_search st now (Except.ok ⟨none⟩)).1 = "No results found." ∧
    (web_search st now (Except.ok ⟨some []⟩)).1 = "No results found." ∧
    ("No results found." : String) ≠ "" :=
  ⟨rfl, rfl, by decide⟩

/-- C7 counterexample: on an entry with title `"T"`, url `"U"`, no
`snippet` key and `content = "C"`, the code falls back to the `content`
field and emits `"- T (U): C"`, not the claimed placeholder line. -/
theorem web_search_snippet_cex :
    (web_search ⟨0⟩ 0 (Except.ok ⟨some [⟨some "T", some "U", none, some "C"⟩]⟩)).1 =
      "- T (U): C" ∧
    formatEntryClaimed ⟨some "T", some "U", none, some "C"⟩ =
      "- T (U): No snippet available" ∧
    (web_search ⟨0⟩ 0 (Except.ok ⟨some [⟨some "T", some "U", none, some "C"⟩]⟩)).1 ≠
      formatEntryClaimed ⟨some "T", some "U", none, some "C"⟩ :=
  ⟨rfl, rfl, by decide⟩

/-- C7 (amended): for a non-empty result list the output is the
newline-join of one line per entry in provider order, each
`"- {title} ({url}): {snippet}"`, where a missing title becomes
`"No Title"`, a missing url becomes `"No URL"`, and the snippet slot
holds the entry's snippet, falling back to its content when the snippet
is absent or empty, and to `"No snippet available"` when both are. -/
theorem web_search_formats (st : LimiterState) (now : ℚ) (rs : List SearchEntry)
    (h : rs ≠ []) :
    (web_search st now (Except.ok ⟨some rs⟩)).1 =
      String.intercalate "\n" (rs.map (fun r =>
        "- " ++ r.title.getD "No Title" ++ " (" ++ r.url.getD "No URL" ++ "): " ++
          pyOr r.snippet (pyOr r.content "No snippet available"))) ∧
    (rs.map formatEntry).length = rs.length := by
  refine ⟨?_, by simp⟩
  cases rs with
  | nil => exact absurd rfl h
  | cons a l => rfl

/-- Closed instance of `web_search_formats`: two entries, the first
with only a `content` field, the second with an explicit snippet. -/
theorem web_search_formats_witness :
    (web_search ⟨0⟩ 0 (Except.ok ⟨some
        [⟨none, none, none, some "C"⟩, ⟨some "T", some "U", some "S", none⟩]⟩)).1 =
      "- No Title (No URL): C\n- T (U): S" :=
  ((web_search_formats ⟨0⟩ 0
      [⟨none, none, none, some "C"⟩, ⟨some "T", some "U", some "S", none⟩]
      (by decide)).1).trans (by decide)

/-- C10: `last_call_time` is updated to the call-start time on every
invocation, whatever the provider outcome; in particular after a
provider failure the tool returns the failure string and the next call
still starts at least 6 seconds after the failed call's start. -/
theorem web_search_failure_still_throttles (st : LimiterState) (now : ℚ) (m : String)
    (now' : ℚ) (resp' : Except String SearchResponse) :
    (∀ resp, (web_search st now resp).2.last_call_time = callStart now st.last_call_time) ∧
    (web_search st now (Except.error m)).1 = "WebSearchTool failed: " ++ m ∧
    minInterval ≤
      (web_search (web_search st now (Except.error m)).2 now' resp').2.last_call_time -
        (web_search st now (Except.error m)).2.last_call_time :=
  ⟨fun _ => rfl, rfl, callStart_gap now' (callStart now st.last_call_time)⟩

/-- Closed instance of `web_search_failure_still_throttles` at
`last_call_time = 0`, a failing call at clock 1 and a follow-up at
clock 4. -/
theorem web_search_failure_still_throttles_witness :
    (web_search ⟨0⟩ 1 (Except.error "boom")).1 = "WebSearchTool failed: boom" ∧
    minInterval ≤
      (web_search (web_search ⟨0⟩ 1 (Except.error "boom")).2 4 (Except.ok ⟨none⟩)).2.last_call_time -
        (web_search ⟨0⟩ 1 (Except.error "boom")).2.last_call_time :=
  ⟨(web_search_failure_still_throttles ⟨0⟩ 1 "boom" 4 (Except.ok ⟨none⟩)).2.1,
   (web_search_failure_still_throttles ⟨0⟩ 1 "boom" 4 (Except.ok ⟨none⟩)).2.2⟩

/-! ## Helper lemmas: retry loop -/

/-- When every attempt in the remaining budget fails transiently, the
loop consumes the whole budget and ends in the terminal exhaustion
error. -/
theorem safeRunGo_exhaust {α : Type} (f : ℕ → Except RunError α) (base_delay : ℚ) :
    ∀ (r attempt : ℕ),
      (∀ k, attempt ≤ k → k < attempt + r → ∃ e, f k = Except.error e ∧ isTransient e = true) →
      (safeRunGo f base_delay attempt r).outcome =
        SafeOutcome.exhausted "Too many retries, giving up." ∧
      (safeRunGo f base_delay attempt r).attemptsMade = attempt + r := by
  intro r
  induction r with
  | zero =>
    intro attempt _
    simp [safeRunGo]
  | succ m ih =>
    intro attempt h
    obtain ⟨e, he, hte⟩ := h attempt le_rfl (by omega)
    have hrec := ih (attempt + 1) (fun k hk1 hk2 => h k (by omega) (by omega))
    simp only [safeRunGo, he, hte, if_true]
    exact ⟨hrec.1, by rw [hrec.2]; omega⟩

/-- When attempts `attempt .. attempt+n-1` fail transiently and attempt
`attempt+n` succeeds within the budget, the loop returns the success
with `n+1` further attempts made and one backoff sleep per failure. -/
theorem safeRunGo_success {α : Type} (f : ℕ → Except RunError α) (base_delay : ℚ) (a : α) :
    ∀ (n attempt r : ℕ),
      (∀ k, attempt ≤ k → k < attempt + n → ∃ e, f k = Except.error e ∧ isTransient e = true) →
      f (attempt + n) = Except.ok a → n < r →
      safeRunGo f base_delay attempt r =
        ⟨SafeOutcome.ok a, attempt + n + 1, backoffSleeps base_delay attempt n⟩ := by
  intro n
  induction n with
  | zero =>
    intro attempt r _ hok hr
    match r, hr with
    | r + 1, _ =>
      rw [Nat.add_zero] at hok
      simp [safeRunGo, hok, backoffSleeps]
  | succ m ih =>
    intro attempt r h hok hr
    match r, hr with
    | r + 1, hr =>
      obtain ⟨e, he, hte⟩ := h attempt le_rfl (by omega)
      have hrec := ih (attempt + 1) r (fun k hk1 hk2 => h k (by omega) (by omega))
        (by rw [show attempt + 1 + m = attempt + (m + 1) by omega]; exact hok) (by omega)
      simp only [safeRunGo, he, hte, if_true, hrec, backoffSleeps, SafeTrace.mk.injEq]
      exact ⟨trivial, by omega, trivial⟩

/-- The backoff sleeps starting at attempt `start` are
`base_delay * 2 ^ (start + k)` for `k < n`. -/
theorem backoffSleeps_eq_map (base_delay : ℚ) :
    ∀ (n start : ℕ), backoffSleeps base_delay start n =
      (List.range n).map (fun k => base_delay * 2 ^ (start + k)) := by
  intro n
  induction n with
  | zero =>
    intro start
    simp [backoffSleeps]
  | succ m ih =>
    intro start
    rw [backoffSleeps, ih (start + 1), List.range_succ_eq_map]
    simp only [List.map_cons, List.map_map, Nat.add_zero]
    refine congrArg₂ _ rfl ?_
    refine List.map_congr_left ?_
    intro k _
    simp only [Function.comp]
    refine congrArg _ ?_
    refine congrArg _ ?_
    omega

/-! ## Claim theorems: retrying invoker -/

/-- C2: when every attempt fails transiently (a rate-limit signal, or a
message containing `"RESOURCE_EXHAUSTED"` or `"429"`), `safe_run_sync`
makes exactly `max_retries` attempts and then fails with the terminal
error carrying the fixed message `"Too many retries, giving up."`; the
`exhausted` outcome carries no result value, so the caller receives no
partial result. -/
theorem safe_run_sync_exhaustion {α : Type} (f : ℕ → Except RunError α)
    (max_retries : ℕ) (base_delay : ℚ)
    (h : ∀ k, k < max_retries → ∃ e, f k = Except.error e ∧ isTransient e = true) :
    (safe_run_sync f max_retries base_delay).outcome =
      SafeOutcome.exhausted "Too many retries, giving up." ∧
    (safe_run_sync f max_retries base_delay).attemptsMade = max_retries := by
  have hrec := safeRunGo_exhaust f base_delay max_retries 0
    (fun k hk1 hk2 => h k (by omega))
  exact ⟨hrec.1, by rw [safe_run_sync, hrec.2]; omega⟩

/-- Closed instance of `safe_run_sync_exhaustion`: an invocation that
always raises a rate-limit error exhausts all 5 default retries. -/
theorem safe_run_sync_exhaustion_witness :
    (safe_run_sync (fun _ => (Except.error (RunError.rateLimit "hit") : Except RunError ℕ))
        5 5).outcome = SafeOutcome.exhausted "Too many retries, giving up." ∧
    (safe_run_sync (fun _ => (Except.error (RunError.rateLimit "hit") : Except RunError ℕ))
        5 5).attemptsMade = 5 :=
  safe_run_sync_exhaustion _ 5 5 (fun _ _ => ⟨RunError.rateLimit "hit", rfl, rfl⟩)

/-- C3: when the first `n` attempts fail transiently and attempt `n`
succeeds within the retry budget, `safe_run_sync` returns exactly the
success result after `n+1` attempts, and the backoff sleep performed
after the `k`-th failed attempt (0-indexed) lasts
`base_delay * 2 ^ k` seconds; for `n = 2` the sleeps are `base_delay`
and `2 * base_delay`. -/
theorem safe_run_sync_backoff {α : Type} (f : ℕ → Except RunError α) (a : α)
    (n max_retries : ℕ) (base_delay : ℚ)
    (hfail : ∀ k, k < n → ∃ e, f k = Except.error e ∧ isTransient e = true)
    (hok : f n = Except.ok a) (hn : n < max_retries) :
    safe_run_sync f max_retries base_delay =
      ⟨SafeOutcome.ok a, n + 1, (List.range n).map (fun k => base_delay * 2 ^ k)⟩ := by
  have hrec := safeRunGo_success f base_delay a n 0 max_retries
    (fun k hk1 hk2 => hfail k (by omega)) (by rw [Nat.zero_add]; exact hok) hn
  rw [safe_run_sync, hrec, backoffSleeps_eq_map]
  simp

/-- Closed instance of `safe_run_sync_backoff`: two quota failures then
success returns the success value after 3 attempts with sleeps
`[5, 10]`. -/
theorem safe_run_sync_backoff_witness :
    safe_run_sync
        (fun k => if k < 2 then Except.error (RunError.exc "RESOURCE_EXHAUSTED") else Except.ok (42 : ℕ))
        5 5 =
      ⟨SafeOutcome.ok 42, 3, [5, 10]⟩ := by
  have h := safe_run_sync_backoff
    (fun k => if k < 2 then Except.error (RunError.exc "RESOURCE_EXHAUSTED") else Except.ok (42 : ℕ))
    42 2 5 5
    (fun k hk => ⟨RunError.exc "RESOURCE_EXHAUSTED", by simp [hk], by decide⟩)
    (by norm_num) (by norm_num)
  rw [h]
  norm_num [List.range_succ]

/-- C4: a first attempt failing with a non-transient exception (not a
rate-limit signal, message containing neither `"RESOURCE_EXHAUSTED"`
nor `"429"`) is re-raised at once: exactly one attempt, no backoff
sleep. -/
theorem safe_run_sync_nontransient {α : Type} (f : ℕ → Except RunError α) (e : RunError)
    (max_retries : ℕ) (base_delay : ℚ)
    (h0 : f 0 = Except.error e) (hnt : isTransient e = false) (hm : 0 < max_retries) :
    safe_run_sync f max_retries base_delay = ⟨SafeOutcome.raised e, 1, []⟩ := by
  match max_retries, hm with
  | r + 1, _ => simp [safe_run_sync, safeRunGo, h0, hnt]

/-- Closed instance of `safe_run_sync_nontransient`: an exception with
message `"boom"` is re-raised after a single attempt with no sleep. -/
theorem safe_run_sync_nontransient_witness :
    safe_run_sync (fun _ => (Except.error (RunError.exc "boom") : Except RunError ℕ)) 5 5 =
      ⟨SafeOutcome.raised (RunError.exc "boom"), 1, []⟩ :=
  safe_run_sync_nontransient _ (RunError.exc "boom") 5 5 rfl (by decide) (by decide)

/-! ## Claim theorems: orchestrator -/

/-- When the policy never signals sufficiency, the loop runs to the
ceiling and returns the last step's text. -/
theorem orchLoop_never_sufficient (step : ℕ → OrchStep) (maxTurns : ℕ)
    (hnever : ∀ t, (step t).sufficient = false) :
    ∀ (d turn : ℕ) (lastText : String), maxTurns - turn = d + 1 →
      orchLoop step maxTurns turn lastText = (maxTurns, (step (maxTurns - 1)).text) := by
  intro d
  induction d with
  | zero =>
    intro turn lastText hd
    rw [orchLoop, dif_pos (by omega)]
    simp only [hnever turn, Bool.false_eq_true, if_false]
    rw [orchLoop, dif_neg (by omega)]
    have : turn = maxTurns - 1 := by omega
    rw [this]
    refine congrArg₂ _ ?_ rfl
    omega
  | succ m ih =>
    intro turn lastText hd
    rw [orchLoop, dif_pos (by omega)]
    simp only [hnever turn, Bool.false_eq_true, if_false]
    exact ih (turn + 1) (step turn).text (by omega)

/-- C8 (spec-modelled): when sub-agents never signal sufficiency, the
orchestration loop is not an error path: it terminates at exactly
`maxTurns` turns and returns the last available textual output, which
is non-empty whenever the steps produce non-empty text. -/
theorem orchestrate_turn_ceiling (step : ℕ → OrchStep) (maxTurns : ℕ)
    (hnever : ∀ t, (step t).sufficient = false) (hpos : 0 < maxTurns)
    (htext : ∀ t, (step t).text ≠ "") :
    orchestrate step maxTurns = (maxTurns, (step (maxTurns - 1)).text) ∧
    (orchestrate step maxTurns).2 ≠ "" := by
  have h := orchLoop_never_sufficient step maxTurns hnever (maxTurns - 1) 0 "" (by omega)
  rw [orchestrate]
  exact ⟨h, by rw [h]; exact htext _⟩

/-- Closed instance of `orchestrate_turn_ceiling`: with a ceiling of 3
and steps that always produce `"note"` and never signal sufficiency,
the run stops at turn 3 with the non-empty text `"note"`. -/
theorem orchestrate_turn_ceiling_witness :
    orchestrate (fun _ => ⟨"note", false⟩) 3 = (3, "note") ∧
    (orchestrate (fun _ => ⟨"note", false⟩) 3).2 ≠ "" := by
  refine orchestrate_turn_ceiling (fun _ => ⟨"note", false⟩) 3 (fun _ => rfl) (by norm_num) ?_
  intro t
  show ("note" : String) ≠ ""
  decide

/-- C9 counterexample: the one-step selection sequence that invokes
`"ReportWriterTool"` first is valid for the orchestrator's registered
toolset, yet contains no prior `"SynthesisTool"` step — so the ordering
is not structurally enforced by the declaration. -/
theorem report_before_synthesis_cex :
    validTrace ["ReportWriterTool"] = true ∧ reportGated ["ReportWriterTool"] = false := by
  decide

/-- C9 (amended): both `"SynthesisTool"` and `"ReportWriterTool"` are
registered on the orchestrator, every registered tool is selectable as
the very first step, and some valid selection sequence reaches
Reporting with no prior Synthesizing step: the prescribed ordering is
advisory (instruction prose), not structural. -/
theorem report_order_advisory :
    "ReportWriterTool" ∈ orchestratorToolNames ∧
    "SynthesisTool" ∈ orchestratorToolNames ∧
    (orchestratorToolNames.all (fun t => validTrace [t])) = true ∧
    ∃ ts, validTrace ts = true ∧ reportGated ts = false :=
  ⟨by decide, by decide, by decide, ["ReportWriterTool"], by decide, by decide⟩
